import Mathlib

/-!
Verification of the Pelican site configuration `pelicanconf.py`.

The source is a flat settings module: module-level constant assignments read
once by an external static-site generator. We embed it as a record type
`SiteConfig` whose fields carry the source's constant names and literal
values, plus a load function returning that record.
-/

/-- The configuration record declared by `pelicanconf.py`. Field names follow
the Python constants. Optional feed settings are `Option String` (`None` in
the source becomes `none`). -/
structure SiteConfig where
  AUTHOR : String
  SITENAME : String
  SITEURL : String
  TIMEZONE : String
  DEFAULT_LANG : String
  FEED_ALL_ATOM : Option String
  CATEGORY_FEED_ATOM : Option String
  TRANSLATION_FEED_ATOM : Option String
  DEFAULT_PAGINATION : Nat
  MENUITEMS : List (String × String)
  DISPLAY_PAGES_ON_MENU : Bool
  FILES_TO_COPY : List (String × String)
  THEME : String
  deriving DecidableEq, Repr

/-- The literal values assigned in `pelicanconf.py`, in source order. -/
def pelicanconf : SiteConfig where
  AUTHOR := "Daniel Hochman"
  SITENAME := "/var/log/danielhochman"
  SITEURL := "http://localhost:8000"
  TIMEZONE := "America/Los_Angeles"
  DEFAULT_LANG := "en"
  FEED_ALL_ATOM := none
  CATEGORY_FEED_ATOM := none
  TRANSLATION_FEED_ATOM := none
  DEFAULT_PAGINATION := 1
  MENUITEMS := [("Archives", "/archives.html")]
  DISPLAY_PAGES_ON_MENU := true
  FILES_TO_COPY := [("extra/favicon.ico", "favicon.ico")]
  THEME := "themes/pelican-foundation-mod"

/-- Loading the configuration: importing the module evaluates the constant
assignments and yields the record. The source has no inputs and no state, so
a load is a constant function of its (irrelevant) invocation. -/
def loadConfig : Unit → SiteConfig := fun _ => pelicanconf

/-- Whether a path string begins with the separator character. -/
def startsWithSlash (p : String) : Bool := p.data.head? == some '/'

/-- A path is syntactically absolute when it starts with the separator. -/
def isAbsolutePath (p : String) : Bool := startsWithSlash p

/-- A syntactically valid relative path: non-empty and not absolute. -/
def isValidRelativePath (p : String) : Bool := p ≠ "" && !isAbsolutePath p

/-- C1: Loading the configuration record yields `SITENAME` equal to
`"/var/log/danielhochman"`, `DEFAULT_PAGINATION` equal to `1`, and
`MENUITEMS` equal to the single pair `("Archives", "/archives.html")`. -/
theorem load_yields_example_values :
    (loadConfig ()).SITENAME = "/var/log/danielhochman" ∧
    (loadConfig ()).DEFAULT_PAGINATION = 1 ∧
    (loadConfig ()).MENUITEMS = [("Archives", "/archives.html")] := by
  refine ⟨rfl, rfl, rfl⟩

/-- C2: Each feed flag is of optional-string type, and in this configuration
all three are `none`, disabling Atom feed generation. -/
theorem feed_flags_all_none :
    pelicanconf.FEED_ALL_ATOM = none ∧
    pelicanconf.CATEGORY_FEED_ATOM = none ∧
    pelicanconf.TRANSLATION_FEED_ATOM = none := by
  refine ⟨rfl, rfl, rfl⟩

/-- C3: Loading the configuration is deterministic: any two loads yield
identical records, hence identical values for every field. -/
theorem load_deterministic (a b : Unit) : loadConfig a = loadConfig b := rfl

/-- C4: The record is immutable after load: the component defines no
operations beyond field access, and every field access on a loaded record
returns exactly the literal value established at load time (none is derived
from another field). -/
theorem load_fields_are_load_time_literals :
    (loadConfig ()).AUTHOR = "Daniel Hochman" ∧
    (loadConfig ()).SITENAME = "/var/log/danielhochman" ∧
    (loadConfig ()).SITEURL = "http://localhost:8000" ∧
    (loadConfig ()).TIMEZONE = "America/Los_Angeles" ∧
    (loadConfig ()).DEFAULT_LANG = "en" ∧
    (loadConfig ()).FEED_ALL_ATOM = none ∧
    (loadConfig ()).CATEGORY_FEED_ATOM = none ∧
    (loadConfig ()).TRANSLATION_FEED_ATOM = none ∧
    (loadConfig ()).DEFAULT_PAGINATION = 1 ∧
    (loadConfig ()).MENUITEMS = [("Archives", "/archives.html")] ∧
    (loadConfig ()).DISPLAY_PAGES_ON_MENU = true ∧
    (loadConfig ()).FILES_TO_COPY = [("extra/favicon.ico", "favicon.ico")] ∧
    (loadConfig ()).THEME = "themes/pelican-foundation-mod" := by
  decide

/-- C5: `DEFAULT_PAGINATION` is a positive integer. -/
theorem default_pagination_pos : 0 < pelicanconf.DEFAULT_PAGINATION := by
  decide

/-- C6: The string fields `AUTHOR` and `SITENAME` are both non-empty. -/
theorem author_sitename_nonempty :
    pelicanconf.AUTHOR ≠ "" ∧ pelicanconf.SITENAME ≠ "" := by
  decide

/-- C7: `MENUITEMS` is an ordered list whose every element is a pair of two
strings (label, path), and every path begins with `"/"` (site-relative). -/
theorem menuitems_pairs_site_relative :
    ∀ item ∈ pelicanconf.MENUITEMS, startsWithSlash item.2 = true := by
  decide

/-- C8: Every pair in `FILES_TO_COPY` consists of two syntactically valid
relative paths: neither source nor destination is empty or absolute. -/
theorem files_to_copy_valid_relative :
    ∀ p ∈ pelicanconf.FILES_TO_COPY,
      isValidRelativePath p.1 = true ∧ isValidRelativePath p.2 = true := by
  decide

/-- Witness for C7 at the concrete menu entry of the configuration. -/
theorem menuitems_pairs_site_relative_witness :
    startsWithSlash ("Archives", "/archives.html").2 = true :=
  menuitems_pairs_site_relative ("Archives", "/archives.html") (by decide)

/-- Witness for C8 at the concrete copy rule of the configuration. -/
theorem files_to_copy_valid_relative_witness :
    isValidRelativePath ("extra/favicon.ico", "favicon.ico").1 = true ∧
    isValidRelativePath ("extra/favicon.ico", "favicon.ico").2 = true :=
  files_to_copy_valid_relative ("extra/favicon.ico", "favicon.ico") (by decide)

/-- C9: `DISPLAY_PAGES_ON_MENU` is the boolean value `true`. -/
theorem display_pages_on_menu_true :
    pelicanconf.DISPLAY_PAGES_ON_MENU = true := rfl

/-- C10: `FILES_TO_COPY` contains exactly one pair, mapping source path
`"extra/favicon.ico"` to destination path `"favicon.ico"`. -/
theorem files_to_copy_single_pair :
    pelicanconf.FILES_TO_COPY = [("extra/favicon.ico", "favicon.ico")] := rfl
